import Mathlib

/-!
# Blog gateway (`internal/blog/server.go`): handlers, authorization table, saga submission

A shallow embedding of the gateway `Server` of the blog micro-services repository.

* Machine integers (`uint64`, `uint32`) are natural numbers; the gateway never does
  arithmetic on them, it only copies and compares them.  The `int32(...)` conversions of the
  list handlers wrap explicitly.
* The downstream services (user, post, comment, auth), the dtm transaction log and the uuid
  generator are parameters of the model: each is a state-passing function on an arbitrary
  world type `σ`, so that two calls with the same argument may answer differently.
* Every handler runs in `Handler σ`, which threads the world, records every outgoing call in
  a chronological trace and finishes with a response, a gRPC status error, or a Go panic.
* Generated code which is not part of the sources at hand (`ValidateAll`, the
  `..._ServiceDesc.ServiceName` constants) is a parameter as well.
* Logger calls have no effect on the results and are left out; `uuid.New()` is taken to
  succeed.
-/

namespace Blog

/-! ## gRPC status codes and Go errors -/

/-- The codes of `google.golang.org/grpc/codes`, in numeric order. -/
inductive Code where
  | OK | Canceled | Unknown | InvalidArgument | DeadlineExceeded | NotFound | AlreadyExists
  | PermissionDenied | ResourceExhausted | FailedPrecondition | Aborted | OutOfRange
  | Unimplemented | Internal | Unavailable | DataLoss | Unauthenticated
  deriving DecidableEq, Repr

/-- The value built by `status.Error(code, msg)`. -/
structure Status where
  code : Code
  msg : String
  deriving DecidableEq, Repr

/-- The method `c.String()` of a code. -/
def Code.String : Code → String
  | Code.OK => "OK"
  | Code.Canceled => "Canceled"
  | Code.Unknown => "Unknown"
  | Code.InvalidArgument => "InvalidArgument"
  | Code.DeadlineExceeded => "DeadlineExceeded"
  | Code.NotFound => "NotFound"
  | Code.AlreadyExists => "AlreadyExists"
  | Code.PermissionDenied => "PermissionDenied"
  | Code.ResourceExhausted => "ResourceExhausted"
  | Code.FailedPrecondition => "FailedPrecondition"
  | Code.Aborted => "Aborted"
  | Code.OutOfRange => "OutOfRange"
  | Code.Unimplemented => "Unimplemented"
  | Code.Internal => "Internal"
  | Code.Unavailable => "Unavailable"
  | Code.DataLoss => "DataLoss"
  | Code.Unauthenticated => "Unauthenticated"

/-- A Go `error` value: the status it stands for when a handler returns the error itself
(`status.Convert(err)`), and the text of `err.Error()`. -/
structure GoError where
  status : Status
  text : String
  deriving DecidableEq, Repr

/-- The method `err.Error()`. -/
def GoError.Error (e : GoError) : String := e.text

/-- The error of a gRPC status, as a client stub returns it: its text is
`rpc error: code = <code> desc = <message>`. -/
def GoError.ofStatus (c : Code) (msg : String) : GoError :=
  ⟨⟨c, msg⟩, "rpc error: code = " ++ c.String ++ " desc = " ++ msg⟩

/-- An error that carries no status, such as `errors.New(text)`: it converts to `Unknown` with
its text as the message. -/
def GoError.plain (text : String) : GoError := ⟨⟨Code.Unknown, text⟩, text⟩

/-- The function `status.Error(c, msg)`. -/
def status.Error (c : Code) (msg : String) : Status := ⟨c, msg⟩

/-! ## Request context -/

/-- The dynamic values (`interface{}`) a `context.Context` may carry. -/
inductive AnyVal where
  | nil
  | uint64 (n : Nat)
  | int64 (i : Int)
  | str (s : String)
  | bool (b : Bool)
  deriving DecidableEq, Repr

/-- A `context.Context` as its chain of `WithValue` bindings, innermost first. -/
abbrev Context := List (AnyVal × AnyVal)

/-- The method `ctx.Value(key)`: the innermost binding of the key, `nil` when there is none. -/
def Context.Value (ctx : Context) (key : AnyVal) : AnyVal :=
  (ctx.lookup key).getD AnyVal.nil

/-- The type assertion `v.(uint64)` in its comma-ok form: `some n` when `ok` is true. -/
def AnyVal.assertUint64 : AnyVal → Option Nat
  | AnyVal.uint64 n => some n
  | _ => none

/-- The expression `ctx.Value("ID").(uint64)` shared by the protected handlers. -/
def principalID (ctx : Context) : Option Nat :=
  (ctx.Value (AnyVal.str "ID")).assertUint64

/-! ## Messages -/

namespace userv1

/-- The message `userv1.User`. -/
structure User where
  Id : Nat := 0
  Username : String := ""
  Email : String := ""
  Password : String := ""
  Avatar : String := ""
  deriving DecidableEq, Repr, Inhabited

end userv1

namespace postv1

/-- The message `postv1.Post`. -/
structure Post where
  Id : Nat := 0
  Uuid : String := ""
  Title : String := ""
  Content : String := ""
  UserId : Nat := 0
  CommentsCount : Nat := 0
  CreatedAt : Nat := 0
  UpdatedAt : Nat := 0
  deriving DecidableEq, Repr, Inhabited

end postv1

namespace commentv1

/-- The message `commentv1.Comment`. -/
structure Comment where
  Id : Nat := 0
  Uuid : String := ""
  Content : String := ""
  PostId : Nat := 0
  UserId : Nat := 0
  CreatedAt : Nat := 0
  UpdatedAt : Nat := 0
  deriving DecidableEq, Repr, Inhabited

end commentv1

namespace v1

/-- The message `v1.User` of the gateway. -/
structure User where
  Id : Nat := 0
  Username : String := ""
  Avatar : String := ""
  deriving DecidableEq, Repr, Inhabited

/-- The message `v1.Post` of the gateway; `User` is a pointer. -/
structure Post where
  Id : Nat := 0
  Title : String := ""
  Content : String := ""
  UserId : Nat := 0
  CommentsCount : Nat := 0
  CreatedAt : Nat := 0
  UpdatedAt : Nat := 0
  User : Option User := none
  deriving DecidableEq, Repr, Inhabited

/-- The message `v1.Comment` of the gateway; `Post` and `User` are pointers. -/
structure Comment where
  Id : Nat := 0
  Content : String := ""
  PostId : Nat := 0
  UserId : Nat := 0
  CreatedAt : Nat := 0
  UpdatedAt : Nat := 0
  Post : Option Post := none
  User : Option User := none
  deriving DecidableEq, Repr, Inhabited

end v1

/-- A nil-safe protobuf getter for a message-typed field: a nil pointer reads as the zero
message, so that every scalar getter chained behind it returns the zero value. -/
def getMsg {α : Type} [Inhabited α] (p : Option α) : α := p.getD default

namespace userv1

structure GetUserRequest where
  Id : Nat := 0
  deriving DecidableEq, Repr

structure GetUserResponse where
  User : Option User := none
  deriving DecidableEq, Repr

structure GetUserByUsernameRequest where
  Username : String := ""
  Password : String := ""
  deriving DecidableEq, Repr

structure GetUserByUsernameResponse where
  User : Option User := none
  deriving DecidableEq, Repr

structure GetUserByEmailRequest where
  Email : String := ""
  Password : String := ""
  deriving DecidableEq, Repr

structure GetUserByEmailResponse where
  User : Option User := none
  deriving DecidableEq, Repr

structure CreateUserRequest where
  User : Option User := none
  deriving DecidableEq, Repr

structure CreateUserResponse where
  User : Option User := none
  deriving DecidableEq, Repr

structure ListUsersByIDsRequest where
  Ids : List Nat := []
  deriving DecidableEq, Repr

/-- A nil element of `Users` reads as the zero user through the getters, and is kept as such. -/
structure ListUsersByIDsResponse where
  Users : List User := []
  deriving DecidableEq, Repr

end userv1

namespace postv1

structure GetPostRequest where
  Id : Nat := 0
  deriving DecidableEq, Repr

structure GetPostResponse where
  Post : Option Post := none
  deriving DecidableEq, Repr

structure CreatePostRequest where
  Post : Option Post := none
  deriving DecidableEq, Repr

structure CreatePostResponse where
  Post : Option Post := none
  deriving DecidableEq, Repr

structure UpdatePostRequest where
  Post : Option Post := none
  deriving DecidableEq, Repr

structure UpdatePostResponse where
  Success : Bool := false
  deriving DecidableEq, Repr

structure ListPostsRequest where
  Offset : Int := 0
  Limit : Int := 0
  deriving DecidableEq, Repr

/-- A nil element of `Posts` reads as the zero post through the getters, and is kept as such. -/
structure ListPostsResponse where
  Posts : List Post := []
  deriving DecidableEq, Repr

structure IncrementCommentCountRequest where
  Id : Nat := 0
  deriving DecidableEq, Repr

end postv1

namespace commentv1

structure CreateCommentRequest where
  Comment : Option Comment := none
  deriving DecidableEq, Repr

structure GetCommentByUUIDRequest where
  Uuid : String := ""
  deriving DecidableEq, Repr

structure GetCommentByUUIDResponse where
  Comment : Option Comment := none
  deriving DecidableEq, Repr

structure ListCommentsByPostIDRequest where
  PostId : Nat := 0
  Offset : Int := 0
  Limit : Int := 0
  deriving DecidableEq, Repr

structure ListCommentsByPostIDResponse where
  Comments : List Comment := []
  deriving DecidableEq, Repr

end commentv1

namespace authv1

structure GenerateTokenRequest where
  UserId : Nat := 0
  deriving DecidableEq, Repr

structure GenerateTokenResponse where
  Token : String := ""
  deriving DecidableEq, Repr

end authv1

namespace v1

structure CreatePostRequest where
  Post : Option Post := none
  deriving DecidableEq, Repr

structure CreatePostResponse where
  Post : Option Post := none
  deriving DecidableEq, Repr

structure GetPostRequest where
  Id : Nat := 0
  deriving DecidableEq, Repr

structure GetPostResponse where
  Post : Option Post := none
  deriving DecidableEq, Repr

structure UpdatePostRequest where
  Post : Option Post := none
  deriving DecidableEq, Repr

structure UpdatePostResponse where
  Success : Bool := false
  deriving DecidableEq, Repr

/-- The integer type of `Offset` and `Limit` is fixed by the proto file; any Go integer
embeds in `Int`. -/
structure ListPostsRequest where
  Offset : Int := 0
  Limit : Int := 0
  deriving DecidableEq, Repr

structure ListPostsResponse where
  Posts : List Post := []
  Total : Nat := 0
  deriving DecidableEq, Repr

structure CreateCommentRequest where
  Comment : Option Comment := none
  deriving DecidableEq, Repr

structure CreateCommentResponse where
  Comment : Option Comment := none
  deriving DecidableEq, Repr

structure ListCommentsByPostIDRequest where
  PostId : Nat := 0
  Offset : Int := 0
  Limit : Int := 0
  deriving DecidableEq, Repr

structure ListCommentsByPostIDResponse where
  Comments : List Comment := []
  Total : Nat := 0
  deriving DecidableEq, Repr

structure SignUpRequest where
  Username : String := ""
  Email : String := ""
  Password : String := ""
  deriving DecidableEq, Repr

structure SignUpResponse where
  Token : String := ""
  deriving DecidableEq, Repr

structure SignInRequest where
  Username : String := ""
  Email : String := ""
  Password : String := ""
  deriving DecidableEq, Repr

structure SignInResponse where
  Token : String := ""
  deriving DecidableEq, Repr

end v1

/-- The Go conversion `int32(x)` of an integer of any width: keep the low 32 bits, read as a
signed number. -/
def int32 (x : Int) : Int := (x + 2 ^ 31) % 2 ^ 32 - 2 ^ 31

/-! ## The dtm saga client (`dtmgrpc`) -/

/-- The protobuf payload of a saga step. -/
inductive Payload where
  | createComment (req : commentv1.CreateCommentRequest)
  | incrementCommentCount (req : postv1.IncrementCommentCountRequest)
  deriving DecidableEq, Repr

/-- One step of a saga: the forward action, its compensation, and the payload both receive. -/
structure SagaStep where
  action : String
  compensate : String
  payload : Payload
  deriving DecidableEq, Repr

/-- The value `*dtmgrpc.SagaGrpc`. -/
structure SagaGrpc where
  Server : String
  Gid : String
  Steps : List SagaStep := []
  WaitResult : Bool := false
  deriving DecidableEq, Repr

/-- The constructor `dtmgrpc.NewSagaGrpc(server, gid)`. -/
def NewSagaGrpc (server gid : String) : SagaGrpc := ⟨server, gid, [], false⟩

/-- The method `saga.Add(action, compensate, payload)`: appends one step. -/
def SagaGrpc.Add (s : SagaGrpc) (action compensate : String) (payload : Payload) : SagaGrpc :=
  { s with Steps := s.Steps ++ [⟨action, compensate, payload⟩] }

/-! ## Outgoing calls and the handler monad -/

/-- An outgoing call of a handler, with its argument. -/
inductive Call where
  | GetUser (r : userv1.GetUserRequest)
  | GetUserByUsername (r : userv1.GetUserByUsernameRequest)
  | GetUserByEmail (r : userv1.GetUserByEmailRequest)
  | CreateUser (r : userv1.CreateUserRequest)
  | ListUsersByIDs (r : userv1.ListUsersByIDsRequest)
  | GetPost (r : postv1.GetPostRequest)
  | CreatePost (r : postv1.CreatePostRequest)
  | UpdatePost (r : postv1.UpdatePostRequest)
  | ListPosts (r : postv1.ListPostsRequest)
  | GetCommentByUUID (r : commentv1.GetCommentByUUIDRequest)
  | ListCommentsByPostID (r : commentv1.ListCommentsByPostIDRequest)
  | GenerateToken (r : authv1.GenerateTokenRequest)
  | MustGenGid (server : String)
  | Submit (saga : SagaGrpc)
  deriving DecidableEq, Repr

/-- How a handler ends: `(resp, nil)`, `(nil, status error)`, or a panic. -/
inductive Result (α : Type) where
  | ok (resp : α)
  | error (st : Status)
  | panicked
  deriving DecidableEq, Repr

/-- A handler body: from the world and the calls made so far to a result, the new world and
the calls made, oldest first. -/
def Handler (σ α : Type) : Type := σ → List Call → Result α × σ × List Call

/-- Sequencing: the rest of the body runs only after a normal completion. -/
def Handler.bind {σ α β : Type} (m : Handler σ α) (f : α → Handler σ β) : Handler σ β :=
  fun s t =>
    match m s t with
    | (Result.ok a, s1, t1) => f a s1 t1
    | (Result.error e, s1, t1) => (Result.error e, s1, t1)
    | (Result.panicked, s1, t1) => (Result.panicked, s1, t1)

instance {σ : Type} : Monad (Handler σ) where
  pure a := fun s t => (Result.ok a, s, t)
  bind := Handler.bind

/-- The statement `return nil, st`. -/
def fail {σ α : Type} (st : Status) : Handler σ α := fun s t => (Result.error st, s, t)

/-- A call of a client stub: the world moves, the call is recorded, and the Go pair
`(resp, err)` comes back to the body. -/
def rpc {σ β : Type} (c : Call) (f : σ → Except GoError β × σ) :
    Handler σ (Except GoError β) :=
  fun s t => (Result.ok (f s).1, (f s).2, t ++ [c])

/-- A call of `dtmgrpc.MustGenGid`: it panics when the dtm server gives no id. -/
def mustGenGid {σ : Type} (server : String) (f : σ → Option String × σ) : Handler σ String :=
  fun s t =>
    match (f s).1 with
    | some gid => (Result.ok gid, (f s).2, t ++ [Call.MustGenGid server])
    | none => (Result.panicked, (f s).2, t ++ [Call.MustGenGid server])

/-- A call of `saga.Submit()`: `some err` is a non-nil error. -/
def submit {σ : Type} (saga : SagaGrpc) (f : σ → Option GoError × σ) :
    Handler σ (Option GoError) :=
  fun s t => (Result.ok (f s).1, (f s).2, t ++ [Call.Submit saga])

/-- The expression `uuid.New().String()`: it draws from the world and is no outgoing call. -/
def uuidNew {σ : Type} (f : σ → String × σ) : Handler σ String :=
  fun s t => (Result.ok (f s).1, (f s).2, t)

/-- Run a handler from a world with an empty trace. -/
def Handler.run {σ α : Type} (h : Handler σ α) (s : σ) : Result α × σ × List Call := h s []

/-! ## Configuration, clients and the server -/

structure GRPCConf where
  Port : String
  deriving DecidableEq, Repr

structure ServerConf where
  Host : String
  GRPC : GRPCConf
  deriving DecidableEq, Repr

structure ServiceConf where
  Server : ServerConf
  deriving DecidableEq, Repr

/-- The part of `config.Config` the gateway reads. -/
structure Config where
  DTM : ServiceConf
  Comment : ServiceConf
  Post : ServiceConf
  deriving DecidableEq, Repr

/-- The stub `userv1.UserServiceClient`. -/
structure UserServiceClient (σ : Type) where
  GetUser : userv1.GetUserRequest → σ → Except GoError userv1.GetUserResponse × σ
  GetUserByUsername :
    userv1.GetUserByUsernameRequest → σ → Except GoError userv1.GetUserByUsernameResponse × σ
  GetUserByEmail :
    userv1.GetUserByEmailRequest → σ → Except GoError userv1.GetUserByEmailResponse × σ
  CreateUser : userv1.CreateUserRequest → σ → Except GoError userv1.CreateUserResponse × σ
  ListUsersByIDs :
    userv1.ListUsersByIDsRequest → σ → Except GoError userv1.ListUsersByIDsResponse × σ

/-- The stub `postv1.PostServiceClient`. -/
structure PostServiceClient (σ : Type) where
  GetPost : postv1.GetPostRequest → σ → Except GoError postv1.GetPostResponse × σ
  CreatePost : postv1.CreatePostRequest → σ → Except GoError postv1.CreatePostResponse × σ
  UpdatePost : postv1.UpdatePostRequest → σ → Except GoError postv1.UpdatePostResponse × σ
  ListPosts : postv1.ListPostsRequest → σ → Except GoError postv1.ListPostsResponse × σ

/-- The stub `commentv1.CommentServiceClient`. -/
structure CommentServiceClient (σ : Type) where
  GetCommentByUUID :
    commentv1.GetCommentByUUIDRequest → σ → Except GoError commentv1.GetCommentByUUIDResponse × σ
  ListCommentsByPostID :
    commentv1.ListCommentsByPostIDRequest → σ →
      Except GoError commentv1.ListCommentsByPostIDResponse × σ

/-- The stub `authv1.AuthServiceClient`. -/
structure AuthServiceClient (σ : Type) where
  GenerateToken : authv1.GenerateTokenRequest → σ → Except GoError authv1.GenerateTokenResponse × σ

/-- The two entry points of the `dtmgrpc` library that reach the dtm server. -/
structure DtmClient (σ : Type) where
  MustGenGid : String → σ → Option String × σ
  Submit : SagaGrpc → σ → Option GoError × σ

/-- Generated code the handlers use: the service names of the three `ServiceDesc` values and
the `ValidateAll` methods of the validated requests (`none` is a nil error). -/
structure Generated where
  BlogService_ServiceName : String
  CommentService_ServiceName : String
  PostService_ServiceName : String
  CreatePostRequest_ValidateAll : v1.CreatePostRequest → Option GoError
  SignUpRequest_ValidateAll : v1.SignUpRequest → Option GoError
  SignInRequest_ValidateAll : v1.SignInRequest → Option GoError

/-- The struct `Server`, with the libraries it reaches the outside through. -/
structure Server (σ : Type) where
  conf : Config
  userClient : UserServiceClient σ
  postClient : PostServiceClient σ
  commentClient : CommentServiceClient σ
  authClient : AuthServiceClient σ
  dtm : DtmClient σ
  uuid : σ → String × σ
  gen : Generated

/-! ## The authorization table -/

/-- The variable `prefix`: `"/" + v1.BlogService_ServiceDesc.ServiceName + "/"`. -/
def methodPfx (serviceName : String) : String := "/" ++ serviceName ++ "/"

/-- The map literal `AuthMethods`, entry by entry. -/
def AuthMethods (serviceName : String) : List (String × Bool) :=
  [ (methodPfx serviceName ++ "SignUp", false),
    (methodPfx serviceName ++ "SignIn", false),
    (methodPfx serviceName ++ "CreatePost", true),
    (methodPfx serviceName ++ "UpdatePost", true),
    (methodPfx serviceName ++ "CreateComment", true),
    (methodPfx serviceName ++ "GetPost", false),
    (methodPfx serviceName ++ "ListPosts", false) ]

/-- The comma-ok lookup `v, ok := AuthMethods[name]`: `none` when the key is not in the map. -/
def AuthMethods.find (serviceName name : String) : Option Bool :=
  (AuthMethods serviceName).lookup name

/-- The index expression `AuthMethods[name]` of a Go `map[string]bool`: the stored value, and
the zero value `false` for a key that is not in the map. -/
def AuthMethods.index (serviceName name : String) : Bool :=
  (AuthMethods.find serviceName name).getD false

/-- The methods the struct `Server` implements, by their names in the source. -/
def serverMethods : List String :=
  ["CreatePost", "GetPost", "UpdatePost", "ListPosts", "CreateComment",
   "ListCommentsByPostID", "SignUp", "SignIn"]

/-! ## The handlers -/

/-- The literal `&v1.User{Id, Username, Avatar}` filled from a `userv1.User`. -/
def toV1User (u : userv1.User) : v1.User :=
  { Id := u.Id, Username := u.Username, Avatar := u.Avatar }

/-- The literal `&v1.Post{...}` filled from a `postv1.Post` and the user to embed. -/
def toV1Post (p : postv1.Post) (u : userv1.User) : v1.Post :=
  { Id := p.Id, Title := p.Title, Content := p.Content, UserId := p.UserId,
    CommentsCount := p.CommentsCount, CreatedAt := p.CreatedAt, UpdatedAt := p.UpdatedAt,
    User := some (toV1User u) }

/-- The handler `Server.CreatePost`. -/
def Server.CreatePost {σ : Type} (s : Server σ) (ctx : Context) (req : v1.CreatePostRequest) :
    Handler σ v1.CreatePostResponse :=
  match s.gen.CreatePostRequest_ValidateAll req with
  | some err => fail (status.Error Code.InvalidArgument err.Error)
  | none =>
  match principalID ctx with
  | none => fail (status.Error Code.Unauthenticated "user not authenticated")
  | some userID => do
  match ← rpc (Call.GetUser { Id := userID }) (s.userClient.GetUser { Id := userID }) with
  | Except.error err => fail (status.Error Code.NotFound err.Error)
  | Except.ok userResp => do
  let title := (getMsg req.Post).Title
  let content := (getMsg req.Post).Content
  let uuid ← uuidNew s.uuid
  let postReq : postv1.CreatePostRequest :=
    { Post := some { Uuid := uuid, Title := title, Content := content,
                     UserId := (getMsg userResp.User).Id } }
  match ← rpc (Call.CreatePost postReq) (s.postClient.CreatePost postReq) with
  | Except.error err => fail (status.Error Code.Internal err.Error)
  | Except.ok postResp =>
  pure { Post := some (toV1Post (getMsg postResp.Post) (getMsg userResp.User)) }

/-- The handler `Server.GetPost`. -/
def Server.GetPost {σ : Type} (s : Server σ) (_ctx : Context) (req : v1.GetPostRequest) :
    Handler σ v1.GetPostResponse := do
  let postID := req.Id
  match ← rpc (Call.GetPost { Id := postID }) (s.postClient.GetPost { Id := postID }) with
  | Except.error err => fail (status.Error Code.NotFound err.Error)
  | Except.ok postResp => do
  let userReq : userv1.GetUserRequest := { Id := (getMsg postResp.Post).UserId }
  match ← rpc (Call.GetUser userReq) (s.userClient.GetUser userReq) with
  | Except.error err => fail (status.Error Code.NotFound err.Error)
  | Except.ok postUserResp =>
  pure { Post := some (toV1Post (getMsg postResp.Post) (getMsg postUserResp.User)) }

/-- The post sent by `Server.UpdatePost`: the id, and the title and the content when they are
not the empty string. -/
def updatedPost (req : v1.UpdatePostRequest) : postv1.Post :=
  let p0 : postv1.Post := { Id := (getMsg req.Post).Id }
  let p1 := if (getMsg req.Post).Title ≠ "" then { p0 with Title := (getMsg req.Post).Title } else p0
  if (getMsg req.Post).Content ≠ "" then { p1 with Content := (getMsg req.Post).Content } else p1

/-- The handler `Server.UpdatePost`. -/
def Server.UpdatePost {σ : Type} (s : Server σ) (ctx : Context) (req : v1.UpdatePostRequest) :
    Handler σ v1.UpdatePostResponse :=
  match principalID ctx with
  | none => fail (status.Error Code.Unauthenticated "user not authenticated")
  | some userID => do
  match ← rpc (Call.GetUser { Id := userID }) (s.userClient.GetUser { Id := userID }) with
  | Except.error err => fail (status.Error Code.NotFound err.Error)
  | Except.ok userResp => do
  let postReq : postv1.GetPostRequest := { Id := (getMsg req.Post).Id }
  match ← rpc (Call.GetPost postReq) (s.postClient.GetPost postReq) with
  | Except.error err => fail (status.Error Code.NotFound err.Error)
  | Except.ok postResp => do
  if (getMsg userResp.User).Id ≠ (getMsg postResp.Post).UserId then
    fail (status.Error Code.PermissionDenied "user not authorized")
  else do
  let updReq : postv1.UpdatePostRequest := { Post := some (updatedPost req) }
  match ← rpc (Call.UpdatePost updReq) (s.postClient.UpdatePost updReq) with
  | Except.error _ => fail (status.Error Code.Internal "hhhh")
  | Except.ok updatePostResp =>
  if !updatePostResp.Success then fail (status.Error Code.Internal "hhhh")
  else pure { Success := true }

/-- The first loop of `Server.ListPosts`: the author id of every post, in order. -/
def postUserIDs (posts : List postv1.Post) : List Nat :=
  posts.foldl (fun ids post => ids ++ [post.UserId]) []

/-- The nested loop of `Server.ListPosts`: for every post, in order, and every user, in order,
append an aggregated post when the ids agree. -/
def aggregatePosts (posts : List postv1.Post) (users : List userv1.User) : List v1.Post :=
  posts.foldl
    (fun acc post =>
      users.foldl
        (fun acc postUser =>
          if post.UserId = postUser.Id then acc ++ [toV1Post post postUser] else acc)
        acc)
    []

/-- The handler `Server.ListPosts`. -/
def Server.ListPosts {σ : Type} (s : Server σ) (_ctx : Context) (req : v1.ListPostsRequest) :
    Handler σ v1.ListPostsResponse := do
  let offset := req.Offset
  let limit := req.Limit
  let postReq : postv1.ListPostsRequest := { Offset := int32 offset, Limit := int32 limit }
  match ← rpc (Call.ListPosts postReq) (s.postClient.ListPosts postReq) with
  | Except.error err => fail (status.Error Code.Internal err.Error)
  | Except.ok postResp => do
  let userReq : userv1.ListUsersByIDsRequest := { Ids := postUserIDs postResp.Posts }
  match ← rpc (Call.ListUsersByIDs userReq) (s.userClient.ListUsersByIDs userReq) with
  | Except.error err => fail (status.Error Code.Internal err.Error)
  | Except.ok postUserResp =>
  pure { Posts := aggregatePosts postResp.Posts postUserResp.Users, Total := 0 }

/-- The address of an operation of a service: host, port, `/`, service name, `/`, operation. -/
def endpoint (c : ServiceConf) (serviceName op : String) : String :=
  c.Server.Host ++ c.Server.GRPC.Port ++ "/" ++ serviceName ++ op

/-- The saga `Server.CreateComment` builds for a transaction id, a comment and a post id. -/
def commentSaga {σ : Type} (s : Server σ) (gid : String) (comment : commentv1.Comment)
    (postID : Nat) : SagaGrpc :=
  let DtmGrpcServerAddr := s.conf.DTM.Server.Host ++ s.conf.DTM.Server.GRPC.Port
  let saga :=
    ((NewSagaGrpc DtmGrpcServerAddr gid).Add
      (endpoint s.conf.Comment s.gen.CommentService_ServiceName "/CreateComment")
      (endpoint s.conf.Comment s.gen.CommentService_ServiceName "/CreateCommentCompensate")
      (Payload.createComment { Comment := some comment })).Add
      (endpoint s.conf.Post s.gen.PostService_ServiceName "/IncrementCommentCount")
      (endpoint s.conf.Post s.gen.PostService_ServiceName "/IncrementCommentCountCompensate")
      (Payload.incrementCommentCount { Id := postID })
  { saga with WaitResult := true }

/-- The literal `&commentv1.Comment{...}` of `Server.CreateComment`: a fresh uuid, the id of
the fetched post, the id of the fetched principal, the content of the request. -/
def newComment (uuid : String) (postResp : postv1.GetPostResponse)
    (userResp : userv1.GetUserResponse) (req : v1.CreateCommentRequest) : commentv1.Comment :=
  { Uuid := uuid, PostId := (getMsg postResp.Post).Id, UserId := (getMsg userResp.User).Id,
    Content := (getMsg req.Comment).Content }

/-- The handler `Server.CreateComment`. -/
def Server.CreateComment {σ : Type} (s : Server σ) (ctx : Context)
    (req : v1.CreateCommentRequest) : Handler σ v1.CreateCommentResponse :=
  match principalID ctx with
  | none => fail (status.Error Code.Unauthenticated "user not authenticated")
  | some userID => do
  match ← rpc (Call.GetUser { Id := userID }) (s.userClient.GetUser { Id := userID }) with
  | Except.error err => fail (status.Error Code.NotFound err.Error)
  | Except.ok userResp => do
  let postID := (getMsg req.Comment).PostId
  match ← rpc (Call.GetPost { Id := postID }) (s.postClient.GetPost { Id := postID }) with
  | Except.error err => fail (status.Error Code.NotFound err.Error)
  | Except.ok postResp => do
  let uuid ← uuidNew s.uuid
  let comment := newComment uuid postResp userResp req
  let DtmGrpcServerAddr := s.conf.DTM.Server.Host ++ s.conf.DTM.Server.GRPC.Port
  let gid ← mustGenGid DtmGrpcServerAddr (s.dtm.MustGenGid DtmGrpcServerAddr)
  let saga := commentSaga s gid comment postID
  match ← submit saga (s.dtm.Submit saga) with
  | some _ => fail (status.Error Code.Internal "saga submit failed")
  | none => do
  let userReq : userv1.GetUserRequest := { Id := (getMsg postResp.Post).UserId }
  match ← rpc (Call.GetUser userReq) (s.userClient.GetUser userReq) with
  | Except.error err => fail (status.Error Code.Internal err.Error)
  | Except.ok postUserResp => do
  let uuidReq : commentv1.GetCommentByUUIDRequest := { Uuid := comment.Uuid }
  match ← rpc (Call.GetCommentByUUID uuidReq) (s.commentClient.GetCommentByUUID uuidReq) with
  | Except.error err => fail (status.Error Code.Internal err.Error)
  | Except.ok commentResp =>
  pure
    { Comment := some
        { Id := (getMsg commentResp.Comment).Id,
          Content := (getMsg commentResp.Comment).Content,
          PostId := (getMsg commentResp.Comment).PostId,
          UserId := (getMsg commentResp.Comment).UserId,
          CreatedAt := (getMsg commentResp.Comment).CreatedAt,
          UpdatedAt := (getMsg commentResp.Comment).UpdatedAt,
          Post := some (toV1Post (getMsg postResp.Post) (getMsg postUserResp.User)),
          User := some (toV1User (getMsg userResp.User)) } }

/-- The literal `&v1.Comment{...}` of `Server.ListCommentsByPostID`: no post, no user. -/
def toV1Comment (c : commentv1.Comment) : v1.Comment :=
  { Id := c.Id, Content := c.Content, PostId := c.PostId, UserId := c.UserId,
    CreatedAt := c.CreatedAt, UpdatedAt := c.UpdatedAt }

/-- The handler `Server.ListCommentsByPostID`; on failure it returns the error of the comment
service itself (`return nil, err`), so that the caller sees the status of that error. -/
def Server.ListCommentsByPostID {σ : Type} (s : Server σ) (_ctx : Context)
    (req : v1.ListCommentsByPostIDRequest) : Handler σ v1.ListCommentsByPostIDResponse := do
  let postID := req.PostId
  let offset := req.Offset
  let limit := req.Limit
  let cReq : commentv1.ListCommentsByPostIDRequest :=
    { PostId := postID, Offset := int32 offset, Limit := int32 limit }
  match ← rpc (Call.ListCommentsByPostID cReq) (s.commentClient.ListCommentsByPostID cReq) with
  | Except.error err => fail err.status
  | Except.ok commentResp =>
  pure
    { Comments := commentResp.Comments.foldl (fun comments c => comments ++ [toV1Comment c]) [],
      Total := 0 }

/-- The handler `Server.SignUp`. -/
def Server.SignUp {σ : Type} (s : Server σ) (_ctx : Context) (req : v1.SignUpRequest) :
    Handler σ v1.SignUpResponse :=
  match s.gen.SignUpRequest_ValidateAll req with
  | some err => fail (status.Error Code.InvalidArgument err.Error)
  | none => do
  let username := req.Username
  let email := req.Email
  let password := req.Password
  let nameReq : userv1.GetUserByUsernameRequest := { Username := username }
  let usernameResp ← rpc (Call.GetUserByUsername nameReq) (s.userClient.GetUserByUsername nameReq)
  if (match usernameResp with
      | Except.ok r => decide ((getMsg r.User).Id ≠ 0)
      | Except.error _ => false) then
    fail (status.Error Code.AlreadyExists "username already exists")
  else do
  let emailReq : userv1.GetUserByEmailRequest := { Email := email }
  let emailResp ← rpc (Call.GetUserByEmail emailReq) (s.userClient.GetUserByEmail emailReq)
  if (match emailResp with
      | Except.ok r => decide ((getMsg r.User).Id ≠ 0)
      | Except.error _ => false) then
    fail (status.Error Code.AlreadyExists "email already exists")
  else do
  let createReq : userv1.CreateUserRequest :=
    { User := some { Username := username, Email := email, Password := password } }
  match ← rpc (Call.CreateUser createReq) (s.userClient.CreateUser createReq) with
  | Except.error _ => fail (status.Error Code.Internal "failed to create user")
  | Except.ok userResp => do
  let tokenReq : authv1.GenerateTokenRequest := { UserId := (getMsg userResp.User).Id }
  match ← rpc (Call.GenerateToken tokenReq) (s.authClient.GenerateToken tokenReq) with
  | Except.error _ => fail (status.Error Code.Internal "failed to generate token")
  | Except.ok authResp =>
  pure { Token := authResp.Token }

/-- The tail of `Server.SignIn`, once the user id is known. -/
def signInToken {σ : Type} (s : Server σ) (userID : Nat) : Handler σ v1.SignInResponse := do
  let tokenReq : authv1.GenerateTokenRequest := { UserId := userID }
  match ← rpc (Call.GenerateToken tokenReq) (s.authClient.GenerateToken tokenReq) with
  | Except.error err =>
    fail (status.Error Code.Internal ("failed to generate token: " ++ err.Error))
  | Except.ok authResp =>
  pure { Token := authResp.Token }

/-- The handler `Server.SignIn`. -/
def Server.SignIn {σ : Type} (s : Server σ) (_ctx : Context) (req : v1.SignInRequest) :
    Handler σ v1.SignInResponse :=
  match s.gen.SignInRequest_ValidateAll req with
  | some err => fail (status.Error Code.InvalidArgument err.Error)
  | none => do
  let email := req.Email
  let username := req.Username
  let password := req.Password
  if email = "" ∧ username = "" then
    fail (status.Error Code.InvalidArgument "email and username cannot be empty")
  else if email ≠ "" then do
    let emailReq : userv1.GetUserByEmailRequest := { Email := email, Password := password }
    match ← rpc (Call.GetUserByEmail emailReq) (s.userClient.GetUserByEmail emailReq) with
    | Except.error err =>
      fail (status.Error Code.Internal ("failed to get user by email: " ++ err.Error))
    | Except.ok resp => signInToken s (getMsg resp.User).Id
  else do
    let nameReq : userv1.GetUserByUsernameRequest := { Username := username, Password := password }
    match ← rpc (Call.GetUserByUsername nameReq) (s.userClient.GetUserByUsername nameReq) with
    | Except.error err =>
      fail (status.Error Code.Internal ("failed to get user by username: " ++ err.Error))
    | Except.ok resp => signInToken s (getMsg resp.User).Id

/-! ## Observations on a trace -/

/-- The sagas handed to `Submit`, oldest first. -/
def submittedSagas (t : List Call) : List SagaGrpc :=
  t.filterMap (fun c => match c with
    | Call.Submit g => some g
    | _ => none)

/-- The dtm servers a transaction id was requested from, oldest first. -/
def gidRequests (t : List Call) : List String :=
  t.filterMap (fun c => match c with
    | Call.MustGenGid a => some a
    | _ => none)

/-- The join the aggregation is meant to compute: every post, in order, with the first user
whose id is the post's author id, and no entry for a post without such a user. -/
def joinPosts (posts : List postv1.Post) (users : List userv1.User) : List v1.Post :=
  posts.filterMap (fun p => (users.find? (fun u => decide (p.UserId = u.Id))).map (toV1Post p))

/-! ## A sample deployment

In-memory stand-ins for the four services, the dtm server and the uuid generator, used to
run the handlers on concrete inputs.  The dtm stand-in runs the forward actions of a saga in
order and, when one of them fails, leaves the world as it was before the submission and
reports an error. -/

namespace Sample

/-- The stores of the services, the ids of the posts that are closed for comments, and the
supplies of fresh identifiers. -/
structure World where
  users : List userv1.User
  posts : List postv1.Post
  comments : List commentv1.Comment
  closed : List Nat
  uuids : List String
  gids : List String
  deriving DecidableEq, Repr

def notFound (what : String) : GoError := GoError.ofStatus Code.NotFound what

def userClient : UserServiceClient World where
  GetUser r w :=
    match w.users.find? (fun u => decide (u.Id = r.Id)) with
    | some u => (Except.ok { User := some u }, w)
    | none => (Except.error (notFound "user not found"), w)
  GetUserByUsername r w :=
    match w.users.find? (fun u => decide (u.Username = r.Username)) with
    | some u => (Except.ok { User := some u }, w)
    | none => (Except.error (notFound "user not found"), w)
  GetUserByEmail r w :=
    match w.users.find? (fun u => decide (u.Email = r.Email)) with
    | some u => (Except.ok { User := some u }, w)
    | none => (Except.error (notFound "user not found"), w)
  CreateUser r w :=
    let u : userv1.User := { getMsg r.User with Id := w.users.length + 1 }
    (Except.ok { User := some u }, { w with users := w.users ++ [u] })
  ListUsersByIDs r w :=
    (Except.ok { Users := w.users.filter (fun u => decide (u.Id ∈ r.Ids)) }, w)

def postClient : PostServiceClient World where
  GetPost r w :=
    match w.posts.find? (fun p => decide (p.Id = r.Id)) with
    | some p => (Except.ok { Post := some p }, w)
    | none => (Except.error (notFound "post not found"), w)
  CreatePost r w :=
    let p : postv1.Post := { getMsg r.Post with Id := w.posts.length + 1 }
    (Except.ok { Post := some p }, { w with posts := w.posts ++ [p] })
  UpdatePost r w :=
    let q := getMsg r.Post
    (Except.ok { Success := true },
      { w with posts := w.posts.map (fun p =>
          if p.Id = q.Id then
            { p with Title := if q.Title = "" then p.Title else q.Title,
                     Content := if q.Content = "" then p.Content else q.Content }
          else p) })
  ListPosts r w :=
    (Except.ok { Posts := (w.posts.drop r.Offset.toNat).take r.Limit.toNat }, w)

def commentClient : CommentServiceClient World where
  GetCommentByUUID r w :=
    match w.comments.find? (fun c => decide (c.Uuid = r.Uuid)) with
    | some c => (Except.ok { Comment := some c }, w)
    | none => (Except.error (notFound "comment not found"), w)
  ListCommentsByPostID r w :=
    (Except.ok { Comments := ((w.comments.filter (fun c => decide (c.PostId = r.PostId))).drop
        r.Offset.toNat).take r.Limit.toNat }, w)

def authClient : AuthServiceClient World where
  GenerateToken r w :=
    match w.users.find? (fun u => decide (u.Id = r.UserId)) with
    | some u => (Except.ok { Token := "token-" ++ u.Username }, w)
    | none => (Except.error (notFound "user not found"), w)

/-- The forward action of a step, on the stores: `none` when the owning service refuses. -/
def forward (p : Payload) (w : World) : Option World :=
  match p with
  | Payload.createComment r =>
    some { w with comments :=
      w.comments ++ [{ getMsg r.Comment with Id := w.comments.length + 1 }] }
  | Payload.incrementCommentCount r =>
    if w.posts.any (fun p => decide (p.Id = r.Id)) ∧ r.Id ∉ w.closed then
      some { w with posts := w.posts.map (fun p =>
        if p.Id = r.Id then { p with CommentsCount := p.CommentsCount + 1 } else p) }
    else none

/-- The forward actions of the steps, in order, stopping at the first refusal. -/
def forwardAll : List SagaStep → World → Option World
  | [], w => some w
  | st :: rest, w =>
    match forward st.payload w with
    | some w1 => forwardAll rest w1
    | none => none

def dtm : DtmClient World where
  MustGenGid _ w :=
    match w.gids with
    | g :: rest => (some g, { w with gids := rest })
    | [] => (none, w)
  Submit saga w :=
    match forwardAll saga.Steps w with
    | some w1 => (none, w1)
    | none => (some (GoError.ofStatus Code.Aborted "saga rolled back"), w)

def uuid (w : World) : String × World :=
  match w.uuids with
  | u :: rest => (u, { w with uuids := rest })
  | [] => ("", w)

/-- A validation that asks for a non-empty title, user name and e-mail address. -/
def gen : Generated where
  BlogService_ServiceName := "blog.v1.BlogService"
  CommentService_ServiceName := "comment.v1.CommentService"
  PostService_ServiceName := "post.v1.PostService"
  CreatePostRequest_ValidateAll r :=
    if (getMsg r.Post).Title = "" then some (GoError.plain "invalid title") else none
  SignUpRequest_ValidateAll r :=
    if r.Username = "" ∨ r.Email = "" then some (GoError.plain "invalid sign-up")
    else none
  SignInRequest_ValidateAll _ := none

def conf : Config where
  DTM := ⟨⟨"dtm", ⟨":36790"⟩⟩⟩
  Comment := ⟨⟨"comment", ⟨":50051"⟩⟩⟩
  Post := ⟨⟨"post", ⟨":50052"⟩⟩⟩

def server : Server World where
  conf := conf
  userClient := userClient
  postClient := postClient
  commentClient := commentClient
  authClient := authClient
  dtm := dtm
  uuid := uuid
  gen := gen

/-- Two users and two posts: post 5 belongs to user 1 and has three comments, post 6 belongs
to user 2 and is closed for comments. -/
def world0 : World where
  users := [{ Id := 1, Username := "a", Email := "a@x.com" },
            { Id := 2, Username := "b", Email := "b@x.com" }]
  posts := [{ Id := 5, Title := "t", Content := "c", UserId := 1, CommentsCount := 3 },
            { Id := 6, Title := "u", Content := "d", UserId := 2 }]
  comments := []
  closed := [6]
  uuids := ["u1", "u2"]
  gids := ["g1"]

/-- The context of a request of the authenticated user 1 or 2. -/
def ctxOf (id : Nat) : Context := [(AnyVal.str "ID", AnyVal.uint64 id)]

end Sample

/-! ## Lemmas on the loops, the table and the messages -/

/-- The inner loop of `ListPosts` appends, for one post, the entries of the users with its author
id, in the order of the users. -/
theorem foldl_users_eq (p : postv1.Post) (users : List userv1.User) (acc : List v1.Post) :
    users.foldl
        (fun acc postUser =>
          if p.UserId = postUser.Id then acc ++ [toV1Post p postUser] else acc) acc
      = acc ++ (users.filter (fun u => decide (p.UserId = u.Id))).map (toV1Post p) := by
  induction users generalizing acc with
  | nil => simp
  | cons u us ih =>
    rw [List.foldl_cons, ih]
    by_cases h : p.UserId = u.Id
    · rw [if_pos h, List.filter_cons_of_pos (by simpa using h), List.map_cons,
        List.append_assoc, List.singleton_append]
    · rw [if_neg h, List.filter_cons_of_neg (by simpa using h)]

/-- The outer loop of `ListPosts` appends the entries of every post, in the order of the posts. -/
theorem foldl_posts_eq (posts : List postv1.Post) (users : List userv1.User)
    (acc : List v1.Post) :
    posts.foldl
        (fun acc post =>
          users.foldl
            (fun acc postUser =>
              if post.UserId = postUser.Id then acc ++ [toV1Post post postUser] else acc)
            acc) acc
      = acc ++ posts.flatMap
          (fun p => (users.filter (fun u => decide (p.UserId = u.Id))).map (toV1Post p)) := by
  induction posts generalizing acc with
  | nil => simp
  | cons p ps ih =>
    rw [List.foldl_cons, ih, foldl_users_eq, List.flatMap_cons, List.append_assoc]

/-- The nested loop as a list comprehension. -/
theorem aggregatePosts_eq (posts : List postv1.Post) (users : List userv1.User) :
    aggregatePosts posts users
      = posts.flatMap
          (fun p => (users.filter (fun u => decide (p.UserId = u.Id))).map (toV1Post p)) := by
  rw [aggregatePosts, foldl_posts_eq, List.nil_append]

/-- Among users of pairwise distinct ids, at most one has a given id. -/
theorem filter_eq_find_toList (p : postv1.Post) (users : List userv1.User)
    (hnd : (users.map (fun u => u.Id)).Nodup) :
    users.filter (fun u => decide (p.UserId = u.Id))
      = (users.find? (fun u => decide (p.UserId = u.Id))).toList := by
  induction users with
  | nil => simp
  | cons u us ih =>
    rw [List.map_cons, List.nodup_cons] at hnd
    by_cases h : p.UserId = u.Id
    · have hnone : us.filter (fun v => decide (p.UserId = v.Id)) = [] := by
        rw [List.filter_eq_nil_iff]
        intro v hv
        simp only [decide_eq_true_eq]
        intro hv2
        exact hnd.1 (List.mem_map.mpr ⟨v, hv, by rw [← hv2, h]⟩)
      rw [List.filter_cons_of_pos (by simpa using h), hnone,
        List.find?_cons_of_pos _ (by simpa using h)]
      rfl
    · rw [List.filter_cons_of_neg (by simpa using h),
        List.find?_cons_of_neg _ (by simpa using h), ih hnd.2]

/-- With pairwise distinct user ids the nested loop computes the join. -/
theorem aggregatePosts_eq_join (posts : List postv1.Post) (users : List userv1.User)
    (hnd : (users.map (fun u => u.Id)).Nodup) :
    aggregatePosts posts users = joinPosts posts users := by
  rw [aggregatePosts_eq, joinPosts]
  induction posts with
  | nil => simp
  | cons p ps ih =>
    rw [List.flatMap_cons, ih, filter_eq_find_toList p users hnd, List.filterMap_cons]
    cases users.find? (fun u => decide (p.UserId = u.Id)) <;> simp

/-- The uuid of the new comment is the one drawn. -/
theorem newComment_Uuid (uuid : String) (postResp : postv1.GetPostResponse)
    (userResp : userv1.GetUserResponse) (req : v1.CreateCommentRequest) :
    (newComment uuid postResp userResp req).Uuid = uuid := rfl

/-- Appending to the same string is injective. -/
theorem str_append_left_cancel (p a b : String) : p ++ a = p ++ b ↔ a = b := by
  constructor
  · intro h
    have h2 : (p ++ a).data = (p ++ b).data := by rw [h]
    rw [String.data_append, String.data_append] at h2
    exact String.ext (List.append_cancel_left h2)
  · intro h
    rw [h]

/-- The comparison of two strings with a common head is that of their tails. -/
theorem str_beq_append_left (p a b : String) : (p ++ a == p ++ b) = (a == b) := by
  rw [Bool.eq_iff_iff, beq_iff_eq, beq_iff_eq]
  exact str_append_left_cancel p a b

/-- The seven entries of the table, found under their keys. -/
theorem AuthMethods_find_listed (sn : String) :
    AuthMethods.find sn (methodPfx sn ++ "SignUp") = some false
    ∧ AuthMethods.find sn (methodPfx sn ++ "SignIn") = some false
    ∧ AuthMethods.find sn (methodPfx sn ++ "CreatePost") = some true
    ∧ AuthMethods.find sn (methodPfx sn ++ "UpdatePost") = some true
    ∧ AuthMethods.find sn (methodPfx sn ++ "CreateComment") = some true
    ∧ AuthMethods.find sn (methodPfx sn ++ "GetPost") = some false
    ∧ AuthMethods.find sn (methodPfx sn ++ "ListPosts") = some false := by
  simp [AuthMethods.find, AuthMethods, List.lookup, str_beq_append_left]

/-- The table has no entry for `ListCommentsByPostID`. -/
theorem AuthMethods_find_unlisted (sn : String) :
    AuthMethods.find sn (methodPfx sn ++ "ListCommentsByPostID") = none := by
  simp [AuthMethods.find, AuthMethods, List.lookup, str_beq_append_left]

/-- The handler `ListPosts` returns the aggregation of the posts and users it was given, and
the total 0. -/
theorem ListPosts_run_ok {σ : Type} (s : Server σ) (ctx : Context) (req : v1.ListPostsRequest)
    (w w1 w2 : σ) (postResp : postv1.ListPostsResponse)
    (postUserResp : userv1.ListUsersByIDsResponse)
    (hl : s.postClient.ListPosts { Offset := int32 req.Offset, Limit := int32 req.Limit } w
      = (Except.ok postResp, w1))
    (hu : s.userClient.ListUsersByIDs { Ids := postUserIDs postResp.Posts } w1
      = (Except.ok postUserResp, w2)) :
    (s.ListPosts ctx req).run w =
      (Result.ok { Posts := aggregatePosts postResp.Posts postUserResp.Users, Total := 0 }, w2,
        [Call.ListPosts { Offset := int32 req.Offset, Limit := int32 req.Limit },
         Call.ListUsersByIDs { Ids := postUserIDs postResp.Posts }]) := by
  simp [Server.ListPosts, Handler.run, bind, Handler.bind, rpc, hl, hu, pure]

/-! ## The claims -/

/-- C1 as stated fails for `CreatePost`: in the sample deployment a request with an empty
title and a context without principal is answered with `InvalidArgument`, since the request
is validated before the principal is looked up. -/
theorem CreatePost_invalid_before_unauthenticated :
    principalID [] = none
    ∧ AuthMethods.index Sample.gen.BlogService_ServiceName
        (methodPfx Sample.gen.BlogService_ServiceName ++ "CreatePost") = true
    ∧ (Sample.server.CreatePost [] { Post := some { Title := "" } }).run Sample.world0
        = (Result.error (status.Error Code.InvalidArgument "invalid title"), Sample.world0, [])
    ∧ ∀ msg, ((Sample.server.CreatePost [] { Post := some { Title := "" } }).run Sample.world0).1
        ≠ Result.error (status.Error Code.Unauthenticated msg) := by
  refine ⟨rfl, rfl, rfl, ?_⟩
  intro msg h
  have h2 : (Sample.server.CreatePost [] { Post := some { Title := "" } }).run Sample.world0
      = (Result.error (status.Error Code.InvalidArgument "invalid title"), Sample.world0, []) :=
    rfl
  rw [h2] at h
  simp [status.Error] at h

/-- C1, amended. With no `uint64` principal under the key `"ID"` in the context,
`UpdatePost` and `CreateComment` end with `Unauthenticated` for every request, and
`CreatePost` does so for every request that passes validation; none of them makes an
outgoing call; and the table `AuthMethods` marks the three operations as requiring
authentication. -/
theorem no_principal_unauthenticated {σ : Type} (s : Server σ) (ctx : Context) (w : σ)
    (hno : principalID ctx = none) :
    (∀ req, s.gen.CreatePostRequest_ValidateAll req = none →
        (s.CreatePost ctx req).run w
          = (Result.error (status.Error Code.Unauthenticated "user not authenticated"), w, []))
    ∧ (∀ req, (s.UpdatePost ctx req).run w
          = (Result.error (status.Error Code.Unauthenticated "user not authenticated"), w, []))
    ∧ (∀ req, (s.CreateComment ctx req).run w
          = (Result.error (status.Error Code.Unauthenticated "user not authenticated"), w, []))
    ∧ AuthMethods.index s.gen.BlogService_ServiceName
        (methodPfx s.gen.BlogService_ServiceName ++ "CreatePost") = true
    ∧ AuthMethods.index s.gen.BlogService_ServiceName
        (methodPfx s.gen.BlogService_ServiceName ++ "UpdatePost") = true
    ∧ AuthMethods.index s.gen.BlogService_ServiceName
        (methodPfx s.gen.BlogService_ServiceName ++ "CreateComment") = true := by
  refine ⟨?_, ?_, ?_, ?_, ?_, ?_⟩
  · intro req hv
    simp [Server.CreatePost, Handler.run, hv, hno, fail]
  · intro req
    simp [Server.UpdatePost, Handler.run, hno, fail]
  · intro req
    simp [Server.CreateComment, Handler.run, hno, fail]
  · simp [AuthMethods.index, (AuthMethods_find_listed s.gen.BlogService_ServiceName).2.2.1]
  · simp [AuthMethods.index, (AuthMethods_find_listed s.gen.BlogService_ServiceName).2.2.2.1]
  · simp [AuthMethods.index, (AuthMethods_find_listed s.gen.BlogService_ServiceName).2.2.2.2.1]

/-- C1, amended, in the sample deployment, for an empty context. -/
theorem no_principal_unauthenticated_witness :
    principalID [] = none
    ∧ (Sample.server.CreatePost [] { Post := some { Title := "t" } }).run Sample.world0
        = (Result.error (status.Error Code.Unauthenticated "user not authenticated"),
            Sample.world0, [])
    ∧ (Sample.server.UpdatePost [] { Post := some { Id := 5 } }).run Sample.world0
        = (Result.error (status.Error Code.Unauthenticated "user not authenticated"),
            Sample.world0, [])
    ∧ (Sample.server.CreateComment [] { Comment := some { PostId := 5 } }).run Sample.world0
        = (Result.error (status.Error Code.Unauthenticated "user not authenticated"),
            Sample.world0, []) :=
  ⟨rfl,
   (no_principal_unauthenticated Sample.server [] Sample.world0 rfl).1
     { Post := some { Title := "t" } } rfl,
   (no_principal_unauthenticated Sample.server [] Sample.world0 rfl).2.1
     { Post := some { Id := 5 } },
   (no_principal_unauthenticated Sample.server [] Sample.world0 rfl).2.2.1
     { Comment := some { PostId := 5 } }⟩

/-- C2. `UpdatePost`: when the context carries a principal, `GetUser` and `GetPost` both
succeed and the id of the fetched user differs from the `UserId` of the fetched post, the
handler ends with `PermissionDenied` after exactly these two reads, and the trace holds no
`UpdatePost` call of the post service. -/
theorem UpdatePost_not_owner_denied {σ : Type} (s : Server σ) (ctx : Context)
    (req : v1.UpdatePostRequest) (w w1 w2 : σ) (userID : Nat)
    (userResp : userv1.GetUserResponse) (postResp : postv1.GetPostResponse)
    (hctx : principalID ctx = some userID)
    (hu : s.userClient.GetUser { Id := userID } w = (Except.ok userResp, w1))
    (hp : s.postClient.GetPost { Id := (getMsg req.Post).Id } w1 = (Except.ok postResp, w2))
    (hne : (getMsg userResp.User).Id ≠ (getMsg postResp.Post).UserId) :
    (s.UpdatePost ctx req).run w =
        (Result.error (status.Error Code.PermissionDenied "user not authorized"), w2,
          [Call.GetUser { Id := userID }, Call.GetPost { Id := (getMsg req.Post).Id }])
      ∧ ∀ r, Call.UpdatePost r ∉ ((s.UpdatePost ctx req).run w).2.2 := by
  have h : (s.UpdatePost ctx req).run w =
        (Result.error (status.Error Code.PermissionDenied "user not authorized"), w2,
          [Call.GetUser { Id := userID }, Call.GetPost { Id := (getMsg req.Post).Id }]) := by
    simp [Server.UpdatePost, Handler.run, hctx, bind, Handler.bind, rpc, fail, hu, hp, hne]
  refine ⟨h, ?_⟩
  rw [h]
  simp

/-- C2, in the sample deployment: user 2 tries to update post 5, which belongs to user 1. -/
theorem UpdatePost_not_owner_denied_witness :
    (Sample.server.UpdatePost (Sample.ctxOf 2) { Post := some { Id := 5, Title := "x" } }).run
        Sample.world0 =
      (Result.error (status.Error Code.PermissionDenied "user not authorized"), Sample.world0,
        [Call.GetUser { Id := 2 }, Call.GetPost { Id := 5 }])
    ∧ ∀ r, Call.UpdatePost r ∉
        ((Sample.server.UpdatePost (Sample.ctxOf 2)
          { Post := some { Id := 5, Title := "x" } }).run Sample.world0).2.2 :=
  UpdatePost_not_owner_denied Sample.server (Sample.ctxOf 2)
    { Post := some { Id := 5, Title := "x" } } Sample.world0 Sample.world0 Sample.world0 2
    { User := some { Id := 2, Username := "b", Email := "b@x.com" } }
    { Post := some { Id := 5, Title := "t", Content := "c", UserId := 1, CommentsCount := 3 } }
    rfl rfl rfl (by decide)

/-- C3 as stated fails.  In the sample deployment user 2 comments on post 5, whose
`CommentsCount` is 3 before the call: every step succeeds and the saga commits, the post
in the store of the post service ends with 4 comments, but the post embedded in the returned
comment carries 3, the value read before the saga, and not 3 + 1. -/
theorem CreateComment_embedded_count_stale :
    (Sample.world0.posts.find? (fun p => decide (p.Id = 5))).map (fun p => p.CommentsCount)
        = some 3
    ∧ ∃ c w tr,
        (Sample.server.CreateComment (Sample.ctxOf 2)
          { Comment := some { PostId := 5, Content := "hi" } }).run Sample.world0
          = (Result.ok { Comment := some c }, w, tr)
        ∧ c.PostId = 5
        ∧ (w.posts.find? (fun p => decide (p.Id = 5))).map (fun p => p.CommentsCount) = some 4
        ∧ (getMsg c.Post).CommentsCount = 3
        ∧ (getMsg c.Post).CommentsCount ≠ 3 + 1 :=
  ⟨rfl, _, _, _, rfl, rfl, rfl, rfl, by decide⟩

/-- C3, amended. `CreateComment`: when the principal is present, the post exists (the post
service answers with the post of the requested id), the saga commits (a transaction id is
obtained and the submission returns no error) and the follow-up reads succeed (the user
service answers, and the comment service answers with a comment that has the post id of the
comment the saga carried), the handler returns a comment: every scalar field is copied from
the comment read back by its uuid, the embedded user is the principal, the outgoing calls
are the two reads, the request for a transaction id, the submission and the two follow-up
reads, in this order; the returned comment has the requested post id; and the post it embeds
is the post as it was fetched before the saga, so that its `CommentsCount` is the value read
before the call, not that value plus 1. -/
theorem CreateComment_success {σ : Type} (s : Server σ) (ctx : Context)
    (req : v1.CreateCommentRequest) (w w1 w2 w3 w4 w5 w6 w7 : σ) (userID : Nat)
    (userResp postUserResp : userv1.GetUserResponse) (postResp : postv1.GetPostResponse)
    (commentResp : commentv1.GetCommentByUUIDResponse) (uuid gid : String)
    (hctx : principalID ctx = some userID)
    (hu : s.userClient.GetUser { Id := userID } w = (Except.ok userResp, w1))
    (hp : s.postClient.GetPost { Id := (getMsg req.Comment).PostId } w1 = (Except.ok postResp, w2))
    (hpost : (getMsg postResp.Post).Id = (getMsg req.Comment).PostId)
    (huuid : s.uuid w2 = (uuid, w3))
    (hgid : s.dtm.MustGenGid (s.conf.DTM.Server.Host ++ s.conf.DTM.Server.GRPC.Port) w3
      = (some gid, w4))
    (hsub : s.dtm.Submit
        (commentSaga s gid (newComment uuid postResp userResp req) (getMsg req.Comment).PostId) w4
      = (none, w5))
    (hpu : s.userClient.GetUser { Id := (getMsg postResp.Post).UserId } w5
      = (Except.ok postUserResp, w6))
    (hc : s.commentClient.GetCommentByUUID { Uuid := uuid } w6 = (Except.ok commentResp, w7))
    (hread : (getMsg commentResp.Comment).PostId
      = (newComment uuid postResp userResp req).PostId) :
    ∃ c : v1.Comment,
      (s.CreateComment ctx req).run w =
        (Result.ok { Comment := some c }, w7,
          [Call.GetUser { Id := userID }, Call.GetPost { Id := (getMsg req.Comment).PostId },
           Call.MustGenGid (s.conf.DTM.Server.Host ++ s.conf.DTM.Server.GRPC.Port),
           Call.Submit (commentSaga s gid (newComment uuid postResp userResp req)
             (getMsg req.Comment).PostId),
           Call.GetUser { Id := (getMsg postResp.Post).UserId },
           Call.GetCommentByUUID { Uuid := uuid }])
      ∧ c = { Id := (getMsg commentResp.Comment).Id,
              Content := (getMsg commentResp.Comment).Content,
              PostId := (getMsg commentResp.Comment).PostId,
              UserId := (getMsg commentResp.Comment).UserId,
              CreatedAt := (getMsg commentResp.Comment).CreatedAt,
              UpdatedAt := (getMsg commentResp.Comment).UpdatedAt,
              Post := some
                { Id := (getMsg postResp.Post).Id,
                  Title := (getMsg postResp.Post).Title,
                  Content := (getMsg postResp.Post).Content,
                  UserId := (getMsg postResp.Post).UserId,
                  CommentsCount := (getMsg postResp.Post).CommentsCount,
                  CreatedAt := (getMsg postResp.Post).CreatedAt,
                  UpdatedAt := (getMsg postResp.Post).UpdatedAt,
                  User := some
                    { Id := (getMsg postUserResp.User).Id,
                      Username := (getMsg postUserResp.User).Username,
                      Avatar := (getMsg postUserResp.User).Avatar } },
              User := some
                { Id := (getMsg userResp.User).Id,
                  Username := (getMsg userResp.User).Username,
                  Avatar := (getMsg userResp.User).Avatar } }
      ∧ c.PostId = (getMsg req.Comment).PostId
      ∧ (getMsg c.Post).Id = (getMsg req.Comment).PostId
      ∧ (getMsg c.Post).CommentsCount = (getMsg postResp.Post).CommentsCount := by
  have h : (s.CreateComment ctx req).run w =
      (Result.ok
        { Comment := some
            { Id := (getMsg commentResp.Comment).Id,
              Content := (getMsg commentResp.Comment).Content,
              PostId := (getMsg commentResp.Comment).PostId,
              UserId := (getMsg commentResp.Comment).UserId,
              CreatedAt := (getMsg commentResp.Comment).CreatedAt,
              UpdatedAt := (getMsg commentResp.Comment).UpdatedAt,
              Post := some (toV1Post (getMsg postResp.Post) (getMsg postUserResp.User)),
              User := some (toV1User (getMsg userResp.User)) } }, w7,
        [Call.GetUser { Id := userID }, Call.GetPost { Id := (getMsg req.Comment).PostId },
         Call.MustGenGid (s.conf.DTM.Server.Host ++ s.conf.DTM.Server.GRPC.Port),
         Call.Submit (commentSaga s gid (newComment uuid postResp userResp req)
           (getMsg req.Comment).PostId),
         Call.GetUser { Id := (getMsg postResp.Post).UserId },
         Call.GetCommentByUUID { Uuid := uuid }]) := by
    simp [Server.CreateComment, Handler.run, hctx, bind, Handler.bind, rpc, fail, hu, hp,
      uuidNew, huuid, mustGenGid, hgid, submit, hsub, hpu, newComment_Uuid, hc, pure]
  refine ⟨_, h, rfl, ?_, hpost, rfl⟩
  show (getMsg commentResp.Comment).PostId = (getMsg req.Comment).PostId
  rw [hread]
  exact hpost

/-- C3, amended, in the sample deployment: user 2 comments on post 5, which has three
comments before the call. -/
theorem CreateComment_success_witness :
    ∃ c : v1.Comment,
      (Sample.server.CreateComment (Sample.ctxOf 2)
        { Comment := some { PostId := 5, Content := "hi" } }).run Sample.world0
        = (Result.ok { Comment := some c },
            { Sample.world0 with
                uuids := ["u2"], gids := [],
                comments := [{ Id := 1, Uuid := "u1", PostId := 5, UserId := 2, Content := "hi" }],
                posts := [{ Id := 5, Title := "t", Content := "c", UserId := 1, CommentsCount := 4 },
                          { Id := 6, Title := "u", Content := "d", UserId := 2 }] },
            [Call.GetUser { Id := 2 }, Call.GetPost { Id := 5 }, Call.MustGenGid "dtm:36790",
             Call.Submit (commentSaga Sample.server "g1"
               { Uuid := "u1", PostId := 5, UserId := 2, Content := "hi" } 5),
             Call.GetUser { Id := 1 }, Call.GetCommentByUUID { Uuid := "u1" }])
      ∧ c = { Id := 1, Content := "hi", PostId := 5, UserId := 2,
              Post := some { Id := 5, Title := "t", Content := "c", UserId := 1,
                             CommentsCount := 3,
                             User := some { Id := 1, Username := "a" } },
              User := some { Id := 2, Username := "b" } }
      ∧ c.PostId = 5
      ∧ (getMsg c.Post).Id = 5
      ∧ (getMsg c.Post).CommentsCount = 3 :=
  CreateComment_success Sample.server (Sample.ctxOf 2)
    { Comment := some { PostId := 5, Content := "hi" } }
    Sample.world0 Sample.world0 Sample.world0
    { Sample.world0 with uuids := ["u2"] }
    { Sample.world0 with uuids := ["u2"], gids := [] }
    { Sample.world0 with
        uuids := ["u2"], gids := [],
        comments := [{ Id := 1, Uuid := "u1", PostId := 5, UserId := 2, Content := "hi" }],
        posts := [{ Id := 5, Title := "t", Content := "c", UserId := 1, CommentsCount := 4 },
                  { Id := 6, Title := "u", Content := "d", UserId := 2 }] }
    _ _ 2
    { User := some { Id := 2, Username := "b", Email := "b@x.com" } }
    { User := some { Id := 1, Username := "a", Email := "a@x.com" } }
    { Post := some { Id := 5, Title := "t", Content := "c", UserId := 1, CommentsCount := 3 } }
    { Comment := some { Id := 1, Uuid := "u1", PostId := 5, UserId := 2, Content := "hi" } }
    "u1" "g1" rfl rfl rfl rfl rfl rfl rfl rfl rfl rfl

/-- C4. `CreateComment`: when the precondition reads succeed, a transaction id is obtained
and the submission of the saga returns an error, the handler ends with `Internal` and no
response, and its trace ends with that one submission: no read follows it (in particular no
`GetCommentByUUID`) and no second submission. -/
theorem CreateComment_submit_fails {σ : Type} (s : Server σ) (ctx : Context)
    (req : v1.CreateCommentRequest) (w w1 w2 w3 w4 w5 : σ) (userID : Nat)
    (userResp : userv1.GetUserResponse) (postResp : postv1.GetPostResponse)
    (uuid gid : String) (err : GoError)
    (hctx : principalID ctx = some userID)
    (hu : s.userClient.GetUser { Id := userID } w = (Except.ok userResp, w1))
    (hp : s.postClient.GetPost { Id := (getMsg req.Comment).PostId } w1 = (Except.ok postResp, w2))
    (huuid : s.uuid w2 = (uuid, w3))
    (hgid : s.dtm.MustGenGid (s.conf.DTM.Server.Host ++ s.conf.DTM.Server.GRPC.Port) w3
      = (some gid, w4))
    (hsub : s.dtm.Submit
        (commentSaga s gid (newComment uuid postResp userResp req) (getMsg req.Comment).PostId) w4
      = (some err, w5)) :
    (s.CreateComment ctx req).run w =
        (Result.error (status.Error Code.Internal "saga submit failed"), w5,
          [Call.GetUser { Id := userID }, Call.GetPost { Id := (getMsg req.Comment).PostId },
           Call.MustGenGid (s.conf.DTM.Server.Host ++ s.conf.DTM.Server.GRPC.Port),
           Call.Submit (commentSaga s gid (newComment uuid postResp userResp req)
             (getMsg req.Comment).PostId)])
      ∧ (∀ r, Call.GetCommentByUUID r ∉ ((s.CreateComment ctx req).run w).2.2)
      ∧ (submittedSagas ((s.CreateComment ctx req).run w).2.2).length = 1 := by
  have h : (s.CreateComment ctx req).run w =
        (Result.error (status.Error Code.Internal "saga submit failed"), w5,
          [Call.GetUser { Id := userID }, Call.GetPost { Id := (getMsg req.Comment).PostId },
           Call.MustGenGid (s.conf.DTM.Server.Host ++ s.conf.DTM.Server.GRPC.Port),
           Call.Submit (commentSaga s gid (newComment uuid postResp userResp req)
             (getMsg req.Comment).PostId)]) := by
    simp [Server.CreateComment, Handler.run, hctx, bind, Handler.bind, rpc, fail, hu, hp,
      uuidNew, huuid, mustGenGid, hgid, submit, hsub]
  refine ⟨h, ?_, ?_⟩ <;> rw [h] <;> simp [submittedSagas]

/-- C4, in the sample deployment: user 1 comments on post 6, which is closed for comments,
so that the second forward action fails and the saga is rolled back. -/
theorem CreateComment_submit_fails_witness :
    (Sample.server.CreateComment (Sample.ctxOf 1)
        { Comment := some { PostId := 6, Content := "hi" } }).run Sample.world0 =
      (Result.error (status.Error Code.Internal "saga submit failed"),
        { Sample.world0 with uuids := ["u2"], gids := [] },
        [Call.GetUser { Id := 1 }, Call.GetPost { Id := 6 },
         Call.MustGenGid "dtm:36790",
         Call.Submit (commentSaga Sample.server "g1"
           { Uuid := "u1", PostId := 6, UserId := 1, Content := "hi" } 6)])
    ∧ (∀ r, Call.GetCommentByUUID r ∉
        ((Sample.server.CreateComment (Sample.ctxOf 1)
          { Comment := some { PostId := 6, Content := "hi" } }).run Sample.world0).2.2)
    ∧ (submittedSagas ((Sample.server.CreateComment (Sample.ctxOf 1)
          { Comment := some { PostId := 6, Content := "hi" } }).run Sample.world0).2.2).length
        = 1 :=
  CreateComment_submit_fails Sample.server (Sample.ctxOf 1)
    { Comment := some { PostId := 6, Content := "hi" } }
    Sample.world0 Sample.world0 Sample.world0
    { Sample.world0 with uuids := ["u2"] }
    { Sample.world0 with uuids := ["u2"], gids := [] }
    { Sample.world0 with uuids := ["u2"], gids := [] }
    1
    { User := some { Id := 1, Username := "a", Email := "a@x.com" } }
    { Post := some { Id := 6, Title := "u", Content := "d", UserId := 2 } }
    "u1" "g1" (GoError.ofStatus Code.Aborted "saga rolled back")
    rfl rfl rfl rfl rfl rfl

/-- C5. `SignUp`: for a request that passes validation, when the lookup of the user name
succeeds and returns a user of non-zero id, the handler ends with `AlreadyExists` after this
one call, and the trace holds neither a `CreateUser` nor a `GenerateToken` call. -/
theorem SignUp_username_exists {σ : Type} (s : Server σ) (ctx : Context)
    (req : v1.SignUpRequest) (w w1 : σ) (usernameResp : userv1.GetUserByUsernameResponse)
    (hvalid : s.gen.SignUpRequest_ValidateAll req = none)
    (hname : s.userClient.GetUserByUsername { Username := req.Username } w
      = (Except.ok usernameResp, w1))
    (hid : (getMsg usernameResp.User).Id ≠ 0) :
    (s.SignUp ctx req).run w =
        (Result.error (status.Error Code.AlreadyExists "username already exists"), w1,
          [Call.GetUserByUsername { Username := req.Username }])
      ∧ (∀ r, Call.CreateUser r ∉ ((s.SignUp ctx req).run w).2.2)
      ∧ (∀ r, Call.GenerateToken r ∉ ((s.SignUp ctx req).run w).2.2) := by
  have h : (s.SignUp ctx req).run w =
        (Result.error (status.Error Code.AlreadyExists "username already exists"), w1,
          [Call.GetUserByUsername { Username := req.Username }]) := by
    simp [Server.SignUp, Handler.run, hvalid, bind, Handler.bind, rpc, fail, hname, hid]
  refine ⟨h, ?_, ?_⟩ <;> rw [h] <;> simp

/-- C5, in the sample deployment: the user name `a` is taken. -/
theorem SignUp_username_exists_witness :
    (Sample.server.SignUp [] { Username := "a", Email := "a@x.com" }).run Sample.world0 =
      (Result.error (status.Error Code.AlreadyExists "username already exists"), Sample.world0,
        [Call.GetUserByUsername { Username := "a" }])
    ∧ (∀ r, Call.CreateUser r ∉
        ((Sample.server.SignUp [] { Username := "a", Email := "a@x.com" }).run Sample.world0).2.2)
    ∧ (∀ r, Call.GenerateToken r ∉
        ((Sample.server.SignUp [] { Username := "a", Email := "a@x.com" }).run Sample.world0).2.2) :=
  SignUp_username_exists Sample.server [] { Username := "a", Email := "a@x.com" }
    Sample.world0 Sample.world0 { User := some { Id := 1, Username := "a", Email := "a@x.com" } }
    rfl rfl (by decide)

/-- C6. The aggregation of `ListPosts`: a post whose author id is the id of no returned user
has no entry in the result (no entry carries its author id, and no entry is built from
it); every entry of the result is built from a post of the list and a returned user, and
embeds that user, whose id is the entry's `UserId`; and two posts with author ids 7 and 8,
joined with one user of id 7, give exactly the entry of the first post. -/
theorem aggregatePosts_drops_unmatched (posts : List postv1.Post) (users : List userv1.User) :
    (∀ p ∈ posts, (∀ u ∈ users, p.UserId ≠ u.Id) →
        (∀ a ∈ aggregatePosts posts users, a.UserId ≠ p.UserId) ∧
        (∀ u, toV1Post p u ∉ aggregatePosts posts users))
    ∧ (∀ a ∈ aggregatePosts posts users, ∃ p ∈ posts, ∃ u ∈ users,
        a = toV1Post p u ∧ a.User = some (toV1User u) ∧ (toV1User u).Id = a.UserId)
    ∧ (∀ (p1 p2 : postv1.Post) (u7 : userv1.User),
        p1.Id = 1 → p1.UserId = 7 → p2.Id = 2 → p2.UserId = 8 → u7.Id = 7 →
        aggregatePosts [p1, p2] [u7] = [toV1Post p1 u7] ∧
        (aggregatePosts [p1, p2] [u7]).map (fun a => a.Id) = [1]) := by
  have hmem : ∀ a ∈ aggregatePosts posts users, ∃ p ∈ posts, ∃ u ∈ users,
      a = toV1Post p u ∧ a.User = some (toV1User u) ∧ (toV1User u).Id = a.UserId := by
    intro a ha
    rw [aggregatePosts_eq, List.mem_flatMap] at ha
    obtain ⟨p, hp, ha⟩ := ha
    rw [List.mem_map] at ha
    obtain ⟨u, hu, rfl⟩ := ha
    rw [List.mem_filter, decide_eq_true_eq] at hu
    exact ⟨p, hp, u, hu.1, rfl, rfl, hu.2.symm⟩
  refine ⟨?_, hmem, ?_⟩
  · intro p _ hnone
    have hno : ∀ a ∈ aggregatePosts posts users, a.UserId ≠ p.UserId := by
      intro a ha heq
      obtain ⟨q, _, u, hu, rfl, _, hid⟩ := hmem a ha
      exact hnone u hu (by rw [← heq]; exact hid.symm)
    exact ⟨hno, fun u hu => hno _ hu rfl⟩
  · intro p1 p2 u7 h1 h17 _ h28 h7
    have hagg : aggregatePosts [p1, p2] [u7] = [toV1Post p1 u7] := by
      simp [aggregatePosts, h17, h28, h7]
    refine ⟨hagg, ?_⟩
    rw [hagg]
    simp [toV1Post, h1]

/-- C6, at the lists of the specification: posts 1 and 2 with authors 7 and 8, and user 7. -/
theorem aggregatePosts_drops_unmatched_witness :
    aggregatePosts [{ Id := 1, UserId := 7 }, { Id := 2, UserId := 8 }] [{ Id := 7 }]
        = [toV1Post { Id := 1, UserId := 7 } { Id := 7 }] ∧
      (aggregatePosts [{ Id := 1, UserId := 7 }, { Id := 2, UserId := 8 }] [{ Id := 7 }]).map
        (fun a => a.Id) = [1] :=
  (aggregatePosts_drops_unmatched [] []).2.2 { Id := 1, UserId := 7 } { Id := 2, UserId := 8 }
    { Id := 7 } rfl rfl rfl rfl rfl

/-- C7. `CreateComment`: when the precondition reads succeed, the saga built for a
transaction id has exactly two steps, in this order: the `CreateComment` operation of the
comment service, compensated by `CreateCommentCompensate` of the same service, with the new
comment (post id of the fetched post, user id of the fetched principal, content of the
request); then `IncrementCommentCount` of the post service, compensated by
`IncrementCommentCountCompensate` of the same service, with the post id of the request; its
`WaitResult` flag is true.  The handler submits this saga, once, when the dtm server gives
a transaction id, and submits nothing when it gives none. -/
theorem CreateComment_saga_steps {σ : Type} (s : Server σ) (ctx : Context)
    (req : v1.CreateCommentRequest) (w w1 w2 w3 : σ) (userID : Nat)
    (userResp : userv1.GetUserResponse) (postResp : postv1.GetPostResponse) (uuid : String)
    (hctx : principalID ctx = some userID)
    (hu : s.userClient.GetUser { Id := userID } w = (Except.ok userResp, w1))
    (hp : s.postClient.GetPost { Id := (getMsg req.Comment).PostId } w1 = (Except.ok postResp, w2))
    (huuid : s.uuid w2 = (uuid, w3)) :
    (∀ gid, commentSaga s gid (newComment uuid postResp userResp req) (getMsg req.Comment).PostId
        = { Server := s.conf.DTM.Server.Host ++ s.conf.DTM.Server.GRPC.Port,
            Gid := gid,
            Steps :=
              [ { action := s.conf.Comment.Server.Host ++ s.conf.Comment.Server.GRPC.Port ++ "/"
                    ++ s.gen.CommentService_ServiceName ++ "/CreateComment",
                  compensate := s.conf.Comment.Server.Host ++ s.conf.Comment.Server.GRPC.Port
                    ++ "/" ++ s.gen.CommentService_ServiceName ++ "/CreateCommentCompensate",
                  payload := Payload.createComment
                    { Comment := some
                        { Uuid := uuid, PostId := (getMsg postResp.Post).Id,
                          UserId := (getMsg userResp.User).Id,
                          Content := (getMsg req.Comment).Content } } },
                { action := s.conf.Post.Server.Host ++ s.conf.Post.Server.GRPC.Port ++ "/"
                    ++ s.gen.PostService_ServiceName ++ "/IncrementCommentCount",
                  compensate := s.conf.Post.Server.Host ++ s.conf.Post.Server.GRPC.Port ++ "/"
                    ++ s.gen.PostService_ServiceName ++ "/IncrementCommentCountCompensate",
                  payload := Payload.incrementCommentCount
                    { Id := (getMsg req.Comment).PostId } } ],
            WaitResult := true })
    ∧ submittedSagas ((s.CreateComment ctx req).run w).2.2
        = (match (s.dtm.MustGenGid (s.conf.DTM.Server.Host ++ s.conf.DTM.Server.GRPC.Port) w3).1
            with
           | some gid =>
             [commentSaga s gid (newComment uuid postResp userResp req)
               (getMsg req.Comment).PostId]
           | none => []) := by
  constructor
  · intro gid
    simp [commentSaga, NewSagaGrpc, SagaGrpc.Add, endpoint, newComment]
  · rcases hg : s.dtm.MustGenGid (s.conf.DTM.Server.Host ++ s.conf.DTM.Server.GRPC.Port) w3
      with ⟨_ | gid, w4⟩
    · simp [Server.CreateComment, Handler.run, hctx, bind, Handler.bind, rpc, fail, hu, hp,
        uuidNew, huuid, mustGenGid, hg, submittedSagas]
    · rcases hs : s.dtm.Submit
          (commentSaga s gid (newComment uuid postResp userResp req) (getMsg req.Comment).PostId)
          w4 with ⟨_ | err, w5⟩
      · rcases hpu : s.userClient.GetUser { Id := (getMsg postResp.Post).UserId } w5
          with ⟨e | postUserResp, w6⟩
        · simp [Server.CreateComment, Handler.run, hctx, bind, Handler.bind, rpc, fail, hu, hp,
            uuidNew, huuid, mustGenGid, hg, submit, hs, hpu, submittedSagas]
        · rcases hc : s.commentClient.GetCommentByUUID { Uuid := uuid } w6
            with ⟨e | commentResp, w7⟩
          · simp [Server.CreateComment, Handler.run, hctx, bind, Handler.bind, rpc, fail, hu,
              hp, uuidNew, huuid, mustGenGid, hg, submit, hs, hpu, newComment_Uuid, hc,
              submittedSagas]
          · simp [Server.CreateComment, Handler.run, hctx, bind, Handler.bind, rpc, fail, hu,
              hp, uuidNew, huuid, mustGenGid, hg, submit, hs, hpu, newComment_Uuid, hc,
              submittedSagas, pure]
      · simp [Server.CreateComment, Handler.run, hctx, bind, Handler.bind, rpc, fail, hu, hp,
          uuidNew, huuid, mustGenGid, hg, submit, hs, submittedSagas]

/-- C7, in the sample deployment: user 2 comments on post 5. -/
theorem CreateComment_saga_steps_witness :
    submittedSagas ((Sample.server.CreateComment (Sample.ctxOf 2)
        { Comment := some { PostId := 5, Content := "hi" } }).run Sample.world0).2.2
      = [{ Server := "dtm:36790", Gid := "g1",
           Steps :=
             [ { action := "comment:50051/comment.v1.CommentService/CreateComment",
                 compensate := "comment:50051/comment.v1.CommentService/CreateCommentCompensate",
                 payload := Payload.createComment
                   { Comment := some { Uuid := "u1", PostId := 5, UserId := 2, Content := "hi" } } },
               { action := "post:50052/post.v1.PostService/IncrementCommentCount",
                 compensate := "post:50052/post.v1.PostService/IncrementCommentCountCompensate",
                 payload := Payload.incrementCommentCount { Id := 5 } } ],
           WaitResult := true }] :=
  (CreateComment_saga_steps Sample.server (Sample.ctxOf 2)
    { Comment := some { PostId := 5, Content := "hi" } }
    Sample.world0 Sample.world0 Sample.world0 { Sample.world0 with uuids := ["u2"] } 2
    { User := some { Id := 2, Username := "b", Email := "b@x.com" } }
    { Post := some { Id := 5, Title := "t", Content := "c", UserId := 1, CommentsCount := 3 } }
    "u1" rfl rfl rfl rfl).2

/-- C8. `CreateComment`: when the lookup of the principal fails, or it succeeds and the
lookup of the target post fails, the handler ends with `NotFound`, and the trace holds no
request for a transaction id and no submission. -/
theorem CreateComment_precondition_fails {σ : Type} (s : Server σ) (ctx : Context)
    (req : v1.CreateCommentRequest) (w : σ) (userID : Nat)
    (hctx : principalID ctx = some userID)
    (hfail :
      (∃ e w1, s.userClient.GetUser { Id := userID } w = (Except.error e, w1)) ∨
      (∃ userResp w1 e w2,
        s.userClient.GetUser { Id := userID } w = (Except.ok userResp, w1) ∧
        s.postClient.GetPost { Id := (getMsg req.Comment).PostId } w1 = (Except.error e, w2))) :
    (∃ msg, ((s.CreateComment ctx req).run w).1 = Result.error (status.Error Code.NotFound msg))
      ∧ gidRequests ((s.CreateComment ctx req).run w).2.2 = []
      ∧ submittedSagas ((s.CreateComment ctx req).run w).2.2 = []
      ∧ (∀ c ∈ ((s.CreateComment ctx req).run w).2.2,
          (∀ a, c ≠ Call.MustGenGid a) ∧ (∀ g, c ≠ Call.Submit g)) := by
  rcases hfail with ⟨e, w1, hu⟩ | ⟨userResp, w1, e, w2, hu, hp⟩
  · have h : (s.CreateComment ctx req).run w =
        (Result.error (status.Error Code.NotFound e.Error), w1,
          [Call.GetUser { Id := userID }]) := by
      simp [Server.CreateComment, Handler.run, hctx, bind, Handler.bind, rpc, fail, hu]
    rw [h]
    exact ⟨⟨_, rfl⟩, by simp [gidRequests], by simp [submittedSagas], by simp⟩
  · have h : (s.CreateComment ctx req).run w =
        (Result.error (status.Error Code.NotFound e.Error), w2,
          [Call.GetUser { Id := userID }, Call.GetPost { Id := (getMsg req.Comment).PostId }]) := by
      simp [Server.CreateComment, Handler.run, hctx, bind, Handler.bind, rpc, fail, hu, hp]
    rw [h]
    exact ⟨⟨_, rfl⟩, by simp [gidRequests], by simp [submittedSagas], by simp⟩

/-- C8, in the sample deployment: user 2 comments on post 9, which does not exist. -/
theorem CreateComment_precondition_fails_witness :
    (∃ msg, ((Sample.server.CreateComment (Sample.ctxOf 2)
        { Comment := some { PostId := 9, Content := "hi" } }).run Sample.world0).1
        = Result.error (status.Error Code.NotFound msg))
      ∧ gidRequests ((Sample.server.CreateComment (Sample.ctxOf 2)
        { Comment := some { PostId := 9, Content := "hi" } }).run Sample.world0).2.2 = []
      ∧ submittedSagas ((Sample.server.CreateComment (Sample.ctxOf 2)
        { Comment := some { PostId := 9, Content := "hi" } }).run Sample.world0).2.2 = []
      ∧ (∀ c ∈ ((Sample.server.CreateComment (Sample.ctxOf 2)
        { Comment := some { PostId := 9, Content := "hi" } }).run Sample.world0).2.2,
          (∀ a, c ≠ Call.MustGenGid a) ∧ (∀ g, c ≠ Call.Submit g)) :=
  CreateComment_precondition_fails Sample.server (Sample.ctxOf 2)
    { Comment := some { PostId := 9, Content := "hi" } } Sample.world0 2 rfl
    (Or.inr ⟨{ User := some { Id := 2, Username := "b", Email := "b@x.com" } }, Sample.world0,
      Sample.notFound "post not found", Sample.world0, rfl, rfl⟩)

/-- C9 as stated fails: `ListCommentsByPostID` is a method of `Server`, the table has no
entry under its fully-qualified name, and indexing the table with that name gives `false`,
no authentication required. -/
theorem AuthMethods_misses_ListCommentsByPostID :
    "ListCommentsByPostID" ∈ serverMethods
    ∧ AuthMethods.find "blog.v1.BlogService" "/blog.v1.BlogService/ListCommentsByPostID" = none
    ∧ AuthMethods.index "blog.v1.BlogService" "/blog.v1.BlogService/ListCommentsByPostID"
        = false := by
  refine ⟨by decide, ?_, ?_⟩
  · exact AuthMethods_find_unlisted "blog.v1.BlogService"
  · rw [AuthMethods.index]
    exact congrArg (fun o => Option.getD o false) (AuthMethods_find_unlisted "blog.v1.BlogService")

/-- C9, amended. Every method of `Server` other than `ListCommentsByPostID` has an entry in
the table `AuthMethods` under its fully-qualified name: `CreatePost`, `UpdatePost` and
`CreateComment` as requiring authentication, `GetPost`, `ListPosts`, `SignUp` and `SignIn`
as not requiring it; and indexing the table with a name it does not list gives `false`,
no authentication required, the zero value of a Go map. -/
theorem AuthMethods_classification (sn : String) :
    (∀ m ∈ serverMethods, m ≠ "ListCommentsByPostID" →
        (AuthMethods.find sn (methodPfx sn ++ m)).isSome = true)
    ∧ AuthMethods.index sn (methodPfx sn ++ "CreatePost") = true
    ∧ AuthMethods.index sn (methodPfx sn ++ "UpdatePost") = true
    ∧ AuthMethods.index sn (methodPfx sn ++ "CreateComment") = true
    ∧ AuthMethods.find sn (methodPfx sn ++ "GetPost") = some false
    ∧ AuthMethods.find sn (methodPfx sn ++ "ListPosts") = some false
    ∧ AuthMethods.find sn (methodPfx sn ++ "SignUp") = some false
    ∧ AuthMethods.find sn (methodPfx sn ++ "SignIn") = some false
    ∧ (∀ name, AuthMethods.find sn name = none → AuthMethods.index sn name = false) := by
  obtain ⟨h1, h2, h3, h4, h5, h6, h7⟩ := AuthMethods_find_listed sn
  refine ⟨?_, ?_, ?_, ?_, h6, h7, h1, h2, ?_⟩
  · intro m hm hne
    simp only [serverMethods, List.mem_cons, List.mem_singleton, List.not_mem_nil,
      or_false] at hm
    rcases hm with rfl | rfl | rfl | rfl | rfl | rfl | rfl | rfl
    · rw [h3]; rfl
    · rw [h6]; rfl
    · rw [h4]; rfl
    · rw [h7]; rfl
    · rw [h5]; rfl
    · exact absurd rfl hne
    · rw [h1]; rfl
    · rw [h2]; rfl
  · rw [AuthMethods.index, h3]; rfl
  · rw [AuthMethods.index, h4]; rfl
  · rw [AuthMethods.index, h5]; rfl
  · intro name hnone
    rw [AuthMethods.index, hnone]
    rfl

/-- C10 as stated fails: one post of author 7 joined with two user records of id 7 gives two
entries, more than there are posts. -/
theorem aggregatePosts_duplicate_user_ids :
    aggregatePosts [{ Id := 1, UserId := 7 }]
        [{ Id := 7, Username := "a" }, { Id := 7, Username := "b" }]
      = [toV1Post { Id := 1, UserId := 7 } { Id := 7, Username := "a" },
         toV1Post { Id := 1, UserId := 7 } { Id := 7, Username := "b" }]
    ∧ ¬ (aggregatePosts [{ Id := 1, UserId := 7 }]
          [{ Id := 7, Username := "a" }, { Id := 7, Username := "b" }]).length
        ≤ [({ Id := 1, UserId := 7 } : postv1.Post)].length := by
  constructor
  · rfl
  · decide

/-- C10, amended. When the returned users have pairwise distinct ids, the aggregation of
`ListPosts` is the join of the posts with the users: every post, in the order of the list,
contributes one entry, built from it and the one user with its author id, when there is
such a user, and nothing otherwise; so the ids of the result are a sublist of the ids of the
posts and the result is not longer than the list of posts; and a post with a matching user
does have its entry in the result. -/
theorem aggregatePosts_distinct_ids (posts : List postv1.Post) (users : List userv1.User)
    (hnd : (users.map (fun u => u.Id)).Nodup) :
    aggregatePosts posts users = joinPosts posts users
    ∧ ((aggregatePosts posts users).map (fun a => a.Id)).Sublist (posts.map (fun p => p.Id))
    ∧ (aggregatePosts posts users).length ≤ posts.length
    ∧ (aggregatePosts posts users).length
        = (posts.filter (fun p => users.any (fun u => decide (p.UserId = u.Id)))).length
    ∧ (∀ p ∈ posts, ∀ u ∈ users, p.UserId = u.Id →
        toV1Post p u ∈ aggregatePosts posts users ∧
        ∀ v ∈ users, toV1Post p v ∈ aggregatePosts posts users → p.UserId = v.Id → v = u) := by
  have hj := aggregatePosts_eq_join posts users hnd
  refine ⟨hj, ?_, ?_, ?_, ?_⟩
  · rw [hj, joinPosts]
    clear hj
    induction posts with
    | nil => simp
    | cons p ps ih =>
      rw [List.filterMap_cons]
      cases users.find? (fun u => decide (p.UserId = u.Id)) with
      | none => exact ih.trans (List.sublist_cons_self _ _)
      | some u => simpa [toV1Post] using ih
  · rw [hj, joinPosts]
    exact List.length_filterMap_le _ _
  · rw [hj, joinPosts]
    clear hj
    induction posts with
    | nil => simp
    | cons p ps ih =>
      rw [List.filterMap_cons, List.filter_cons]
      cases hf : users.find? (fun u => decide (p.UserId = u.Id)) with
      | none =>
        have : users.any (fun u => decide (p.UserId = u.Id)) = false := by
          rw [List.find?_eq_none] at hf
          simpa using hf
        simp [this, ih]
      | some u =>
        have : users.any (fun u => decide (p.UserId = u.Id)) = true := by
          have := List.mem_of_find?_eq_some hf
          have h2 := List.find?_some hf
          rw [List.any_eq_true]
          exact ⟨u, this, h2⟩
        simp [this, ih]
  · intro p hp u hu hpu
    have huniq : ∀ v ∈ users, p.UserId = v.Id → v = u := by
      intro v hv hpv
      have hinj := List.inj_on_of_nodup_map hnd
      exact hinj hv hu (by rw [← hpv, hpu])
    refine ⟨?_, fun v hv _ hpv => huniq v hv hpv⟩
    rw [aggregatePosts_eq, List.mem_flatMap]
    exact ⟨p, hp, List.mem_map.mpr ⟨u, List.mem_filter.mpr ⟨hu, by simpa using hpu⟩, rfl⟩⟩

/-- C10, amended, at the two posts of the specification and two users of distinct ids. -/
theorem aggregatePosts_distinct_ids_witness :
    (([{ Id := 7 }, { Id := 9 }] : List userv1.User).map (fun u => u.Id)).Nodup ∧
    aggregatePosts [{ Id := 1, UserId := 7 }, { Id := 2, UserId := 8 }] [{ Id := 7 }, { Id := 9 }]
      = joinPosts [{ Id := 1, UserId := 7 }, { Id := 2, UserId := 8 }] [{ Id := 7 }, { Id := 9 }] :=
  ⟨by decide,
   (aggregatePosts_distinct_ids [{ Id := 1, UserId := 7 }, { Id := 2, UserId := 8 }]
      [{ Id := 7 }, { Id := 9 }] (by decide)).1⟩

end Blog
